import Mathlib

/-!
Shallow embedding of the snake simulation core (`snake.go`) and proofs
about its tick update, body-chain movement, collision, food and growth
behaviour.

Conventions of the embedding:
* Go `int`/`int64` values are modelled as `Int` (overflow is unreachable at
  the magnitudes the game produces); grid coordinates are `Int` pairs.
* The linked `node` chain (`head` node plus `child` pointers) is modelled as
  the head cell together with the list of descendant cells in chain order
  (`h.child` first, tail last).
* The Go operator `%` on integers truncates toward zero, which is `Int.tmod`;
  Go integer division is `Int.tdiv`.
* The random draws of `rand.Intn` inside `food.respawn` are modelled by an
  explicit candidate stream; `update` is parameterised by that stream.
-/

namespace Snake

abbrev Cell := Int × Int

/-- The immutable grid dimensions of `world` that the simulation core reads
(`cellsX`, `cellsY`). Rendering-only fields are omitted. -/
structure World where
  cellsX : Int
  cellsY : Int
deriving Repr, DecidableEq

/-- The wrap applied to one coordinate in `head.move`:
`if c < 0 { c = extent }` then `if c > extent { c = 0 }`.
Note this keeps coordinates in the inclusive range `[0, extent]`. -/
def wrapCoord (c extent : Int) : Int :=
  let c1 := if c < 0 then extent else c
  if c1 > extent then 0 else c1

/-- `node.collided(x, y)`: the own cell of the node is compared first, then
the chain of descendants, short-circuiting on the first hit. -/
def collided (x y : Int) : List Cell → Bool
  | [] => false
  | c :: rest => (x == c.1 && y == c.2) || collided x y rest

/-- `node.step` on the sub-chain below the head.  The node holding position
`c` whose parent held (pre-move) position `p` takes position `p`; its
descendants are processed with parent snapshot `c`.  The deepest node (tail),
after taking the old position of its parent, appends `g` new nodes, each
created at the position of the current append point (so all copies of the
new tail position), and the global `grow` counter drops to zero. -/
def stepBody (p : Cell) (g : Nat) : List Cell → List Cell × Nat
  | [] => ([], g)
  | [_] => (p :: List.replicate g p, 0)
  | _c :: c2 :: rest =>
      let r := stepBody _c g (c2 :: rest)
      (p :: r.1, r.2)

/-- The `switch direction % 4` of `head.move`: 0 moves right (+x), 1 moves
down (+y), 2 moves left (−x), 3 moves up (−y). -/
def deltaMove (hd : Cell) (d : Nat) : Cell :=
  match d % 4 with
  | 0 => (hd.1 + 1, hd.2)
  | 1 => (hd.1, hd.2 + 1)
  | 2 => (hd.1 - 1, hd.2)
  | _ => (hd.1, hd.2 - 1)

/-- Both coordinate wraps at the end of `head.move`. -/
def wrapCell (w : World) (c : Cell) : Cell :=
  (wrapCoord c.1 w.cellsX, wrapCoord c.2 w.cellsY)

/-- `head.move(w, direction)`: first the child chain steps (a no-op when
there is no child, which `stepBody` reproduces on `[]`), then the head
applies the direction delta and the edge wrap.  Returns the new head, the
new child chain, and the remaining `grow` counter. -/
def moveSnake (w : World) (hd : Cell) (body : List Cell) (d : Nat) (g : Nat) :
    Cell × List Cell × Nat :=
  let r := stepBody hd g body
  (wrapCell w (deltaMove hd d), r.1, r.2)

/-- `head.alive()`: true when there is no child, otherwise the head cell is
checked against the child chain (indices ≥ 1 of the full chain). -/
def alive (hd : Cell) (body : List Cell) : Bool :=
  match body with
  | [] => true
  | b => !(collided hd.1 hd.2 b)

/-- `initSnake`: head at the grid centre, `len − 1` further nodes extending
one cell to the left of their parent. -/
def initSnake (w : World) (len : Nat) : Cell × List Cell :=
  let hd : Cell := (w.cellsX.tdiv 2, w.cellsY.tdiv 2)
  (hd, (List.range (len - 1)).map (fun i => (hd.1 - ((i : Int) + 1), hd.2)))

/-- `food.respawn`, with the draws of `rand.Intn(cellsX)`, `rand.Intn(cellsY)`
made explicit as a candidate stream: the loop keeps drawing while the
candidate collides with the chain (head node included, since `h.collided`
starts at the head) and stops at the first free candidate.  `none` models
the loop never finding a free cell within the given draws. -/
def respawnFind (hd : Cell) (body : List Cell) (cands : List Cell) : Option Cell :=
  cands.find? (fun c => !(collided c.1 c.2 (hd :: body)))

/-- The sample space of `food.respawn`: `rand.Intn(cellsX) × rand.Intn(cellsY)`
draws uniformly from `[0, cellsX) × [0, cellsY)`. -/
def gridCells (w : World) : List Cell :=
  (List.range w.cellsX.toNat).flatMap
    (fun x => (List.range w.cellsY.toNat).map (fun y => ((x : Int), (y : Int))))

/-- `int64(speed - float64(points)/10000.0)` for `speed = 12.0`.
For the reachable scores (non-negative multiples of 10, far below 2^53) the
float64 computation is exact to within ~1e-12 while the true value sits on a
1/1000 grid, except when `points` is a multiple of 10000, where the float
computation is exact; so the int64 truncation always equals the exact
truncated rational `(120000 - points)/10000`. -/
def currSpeedInt (points : Int) : Int :=
  (120000 - points).tdiv 10000

/-- Floor of log10 by structural recursion on a fuel argument, so that
concrete values reduce in the kernel: `log10fuel f n = ⌊log10 n⌋` whenever
`f ≥ n ≥ 1`. -/
def log10fuel : Nat → Nat → Nat
  | 0, _ => 0
  | f + 1, n => if n < 10 then 0 else log10fuel f (n / 10) + 1

/-- `int(math.Log10(float64(points)))`: the floor of log10 of the score,
assigned to `grow` on food consumption.  (Float rounding in the Go `Log10`
could be off by one at exact powers of ten; no theorem below depends on the
exact value, only on positivity, which is robust to that.) -/
def growFormula (points : Int) : Nat :=
  log10fuel points.toNat points.toNat

/-- The per-frame inputs read by `update`: `IsRunningSlowly`, Escape and the
four direction key groups. -/
structure Input where
  slow : Bool
  escape : Bool
  up : Bool
  down : Bool
  left : Bool
  right : Bool
deriving Repr, DecidableEq

def noInput : Input :=
  ⟨false, false, false, false, false, false⟩

/-- The four sequential key checks of `update`, each guarded by the reversal
test against the direction as already updated by the previous checks:
Up sets 3 unless the current direction is 1 (mod 4), Down sets 1 unless 3,
Left sets 2 unless 0, Right sets 0 unless 2. -/
def applyInput (inp : Input) (d : Nat) : Nat :=
  let d1 := if inp.up && d % 4 != 1 then 3 else d
  let d2 := if inp.down && d1 % 4 != 3 then 1 else d1
  let d3 := if inp.left && d2 % 4 != 0 then 2 else d2
  if inp.right && d3 % 4 != 2 then 0 else d3

/-- The mutable session state: the globals `w`, `h` (with its `direction`),
`f`, `grow`, `frame`, `points`. -/
structure GameState where
  world : World
  head : Cell
  body : List Cell
  direction : Nat
  food : Cell
  grow : Nat
  frame : Int
  points : Int
deriving Repr, DecidableEq

/-- The full chain of occupied cells, head first. -/
def chain (s : GameState) : List Cell :=
  s.head :: s.body

/-- Result of one `update` call.  `endGame` is the `errEnd` return,
`lose` the `errLose` return, `modZeroFault` the runtime panic of
`frame % int64(currSpeed)` when `int64(currSpeed) = 0`, and `respawnStuck`
marks the respawn loop exhausting the supplied draws without finding a free
cell (in the Go code this is the loop running forever). -/
inductive Outcome where
  | endGame
  | lose
  | modZeroFault
  | respawnStuck
  | ok (s : GameState)
deriving Repr, DecidableEq

/-- The food-consumption check at the end of `update`: if the head sits on
the food, add the bonus, set `grow` from the score, and respawn the food. -/
def eatPhase (cands : List Cell) (s : GameState) : Outcome :=
  if s.head = s.food then
    let pts := s.points + 1000
    match respawnFind s.head s.body cands with
    | none => Outcome.respawnStuck
    | some fc => Outcome.ok { s with points := pts, grow := growFormula pts, food := fc }
  else Outcome.ok s

/-- One call of `update`: increment the frame; frame-skip when running
slowly; quit on Escape; apply the key checks to the direction; if the frame
count is a multiple of `int64(currSpeed)` (a runtime fault when that is 0),
move the snake, return `errLose` on self-collision, and add the move score;
finally run the food check. -/
def update (inp : Input) (cands : List Cell) (s : GameState) : Outcome :=
  let fr := s.frame + 1
  if inp.slow then Outcome.ok { s with frame := fr }
  else if inp.escape then Outcome.endGame
  else
    let dir := applyInput inp s.direction
    let curr := currSpeedInt s.points
    if curr = 0 then Outcome.modZeroFault
    else if fr.tmod curr = 0 then
      let r := moveSnake s.world s.head s.body dir s.grow
      if alive r.1 r.2.1 then
        eatPhase cands
          { s with head := r.1, body := r.2.1, grow := r.2.2,
                   direction := dir, frame := fr, points := s.points + 10 }
      else Outcome.lose
    else eatPhase cands { s with direction := dir, frame := fr }

/-- The initial session of `main`: snake from `initSnake`, `direction = 0`
(Right), `grow = 1`, `frame = 0`, `points = 0`; the initial food cell (in the
code a first `respawn`) is a parameter. -/
def initSession (w : World) (len : Nat) (fd : Cell) : GameState :=
  let sn := initSnake w len
  { world := w, head := sn.1, body := sn.2, direction := 0, food := fd,
    grow := 1, frame := 0, points := 0 }

/-- Iterate `update` with a fixed input and candidate stream, stopping at
the first non-`ok` outcome. -/
def runTicks (inp : Input) (cands : List Cell) : Nat → GameState → Outcome
  | 0, s => Outcome.ok s
  | n + 1, s =>
      match update inp cands s with
      | Outcome.ok s2 => runTicks inp cands n s2
      | o => o

/-- The input frame that requests direction `r`: exactly the key group that
sets direction `r` is pressed (Up sets 3, Down sets 1, Left sets 2, Right
sets 0). -/
def keyFor (r : Nat) : Input :=
  { slow := false, escape := false,
    up := r % 4 == 3, down := r % 4 == 1, left := r % 4 == 2, right := r % 4 == 0 }

/-- Head of the resulting state of an `ok` outcome. -/
def okHead : Outcome → Option Cell
  | Outcome.ok s => some s.head
  | _ => none

/-- Chain length of the resulting state of an `ok` outcome. -/
def okChainLen : Outcome → Option Nat
  | Outcome.ok s => some (chain s).length
  | _ => none

/-- Pre-move chain of the C1 counterexample: the initial 10×10 session. -/
def c1pre : List Cell := [(5, 5), (4, 5), (3, 5)]

/-- Post-move chain of the C1 counterexample: one move right with the
pending growth of 1 that the session starts with. -/
def c1post : List Cell :=
  (moveSnake ⟨10, 10⟩ (5, 5) [(4, 5), (3, 5)] 0 1).1 ::
    (moveSnake ⟨10, 10⟩ (5, 5) [(4, 5), (3, 5)] 0 1).2.1

/-- A session state with score 120000 (reachable: 100 food consumptions and
2000 moves give 100·1000 + 2000·10 = 120000). -/
def c2state : GameState :=
  { world := ⟨50, 50⟩, head := (25, 25), body := [(24, 25), (23, 25)],
    direction := 0, food := (0, 0), grow := 0, frame := 0, points := 120000 }

/-- A session state with the food away from the chain, one non-gated tick
ahead. -/
def c5state : GameState :=
  { world := ⟨50, 50⟩, head := (25, 25), body := [(24, 25)],
    direction := 0, food := (0, 0), grow := 0, frame := 0, points := 0 }

/-- A session state whose head already sits on the food cell. -/
def c6state : GameState :=
  { world := ⟨50, 50⟩, head := (10, 10), body := [(9, 10)],
    direction := 0, food := (10, 10), grow := 0, frame := 0, points := 0 }

/-- The state `c6state` after its food consumption. -/
def c6state2 : GameState :=
  { c6state with points := 1000, grow := growFormula 1000, food := (0, 0) }

/-- A session state with a three-cell chain heading right. -/
def c8state : GameState :=
  { world := ⟨50, 50⟩, head := (25, 25), body := [(24, 25), (23, 25)],
    direction := 0, food := (0, 0), grow := 0, frame := 0, points := 0 }

/-- A session state on a tick that does not reach the gating threshold. -/
def c9state : GameState :=
  { world := ⟨50, 50⟩, head := (25, 25), body := [(24, 25)],
    direction := 0, food := (0, 0), grow := 0, frame := 0, points := 0 }

/-- The initial session of the C10 scenario: 10×10 grid, initial length 3,
food placed at (0,0), away from the path of the head. -/
def c10start : GameState := initSession ⟨10, 10⟩ 3 (0, 0)

/-! ## Helper lemmas -/

/-- `collided` is membership of the cell in the list. -/
theorem collided_iff_mem (x y : Int) (l : List Cell) :
    collided x y l = true ↔ ((x, y) : Cell) ∈ l := by
  induction l with
  | nil => simp [collided]
  | cons c rest ih => simp [collided, ih, Prod.ext_iff]

/-- `head.alive` returns false exactly when the head cell occurs in the
child chain. -/
theorem alive_eq_false_iff (hd : Cell) (body : List Cell) :
    alive hd body = false ↔ hd ∈ body := by
  cases body with
  | nil => simp [alive]
  | cons c rest => simp [alive, collided_iff_mem]

/-- Shift property of `node.step`: within the range of the old chain, the
cell that ends up at offset `i` of the new child chain is the cell that the
chain (parent snapshot first) held at offset `i` before the step. -/
theorem stepBody_getElem? :
    ∀ (l : List Cell) (p : Cell) (g : Nat) (i : Nat), i < l.length →
      ((stepBody p g l).1)[i]? = (p :: l)[i]?
  | [], _, _, i, h => absurd h (by simp)
  | [c], p, g, 0, _ => by simp [stepBody]
  | [c], p, g, i + 1, h => absurd h (by simp)
  | c :: c2 :: rest, p, g, 0, _ => by simp [stepBody]
  | c :: c2 :: rest, p, g, i + 1, h => by
      have ih := stepBody_getElem? (c2 :: rest) c g i (by simpa using h)
      simpa [stepBody] using ih

/-- Every cell of the stepped child chain is the parent snapshot or one of
the old cells. -/
theorem stepBody_mem :
    ∀ (l : List Cell) (p : Cell) (g : Nat) (c : Cell),
      c ∈ (stepBody p g l).1 → c = p ∨ c ∈ l
  | [], _, _, _, h => by simp [stepBody] at h
  | [x], p, g, c, h => by
      simp [stepBody, List.mem_replicate] at h
      rcases h with h | h
      · exact Or.inl h
      · exact Or.inl h.2
  | x :: x2 :: rest, p, g, c, h => by
      simp only [stepBody, List.mem_cons] at h
      rcases h with h | h
      · exact Or.inl h
      · rcases stepBody_mem (x2 :: rest) x g c h with h | h
        · exact Or.inr (by simp [h])
        · exact Or.inr (by simp [h])

/-- On a non-empty child chain, `node.step` appends all `g` owed segments at
once and leaves the `grow` counter at zero. -/
theorem stepBody_length :
    ∀ (l : List Cell) (p : Cell) (g : Nat), l ≠ [] →
      (stepBody p g l).1.length = l.length + g ∧ (stepBody p g l).2 = 0
  | [], _, _, h => absurd rfl h
  | [x], p, g, _ =>
      ⟨by simp [stepBody]; omega, by simp [stepBody]⟩
  | x :: x2 :: rest, p, g, _ => by
      have ih := stepBody_length (x2 :: rest) x g (by simp)
      refine ⟨?_, ih.2⟩
      show (p :: (stepBody x g (x2 :: rest)).1).length = (x :: x2 :: rest).length + g
      simp only [List.length_cons, ih.1]
      omega

/-- The food check never produces the `errLose` outcome. -/
theorem eatPhase_ne_lose (cands : List Cell) (s : GameState) :
    eatPhase cands s ≠ Outcome.lose := by
  by_cases h : s.head = s.food
  · simp only [eatPhase, if_pos h]
    cases respawnFind s.head s.body cands <;> simp
  · simp [eatPhase, h]

/-- Characterisation of an `ok` result of the food check. -/
theorem eatPhase_ok (cands : List Cell) (s s2 : GameState)
    (h : eatPhase cands s = Outcome.ok s2) :
    s2.world = s.world ∧ s2.head = s.head ∧ s2.body = s.body ∧
      s2.direction = s.direction ∧ s2.frame = s.frame ∧
      ((s2 = s ∧ s.head ≠ s.food) ∨
        (s.head = s.food ∧ s2.points = s.points + 1000 ∧
          s2.grow = growFormula (s.points + 1000) ∧
          respawnFind s.head s.body cands = some s2.food)) := by
  by_cases hf : s.head = s.food
  · simp only [eatPhase, if_pos hf] at h
    cases hr : respawnFind s.head s.body cands with
    | none => rw [hr] at h; exact absurd h (by simp)
    | some fc =>
        rw [hr] at h
        simp only [Outcome.ok.injEq] at h
        subst h
        simp [hf, hr]
  · simp only [eatPhase, if_neg hf, Outcome.ok.injEq] at h
    subst h
    simp [hf]

/-- A cell accepted by the respawn search does not lie on the chain. -/
theorem respawnFind_not_mem (hd : Cell) (body cands : List Cell) (fc : Cell)
    (h : respawnFind hd body cands = some fc) : fc ∉ hd :: body := by
  have hp := List.find?_some h
  intro hmem
  have hc : collided fc.1 fc.2 (hd :: body) = true :=
    (collided_iff_mem _ _ _).mpr (by simpa using hmem)
  rw [hc] at hp
  simp at hp

/-- With at least one step of fuel, the fuelled log10 is positive from 10
upward. -/
theorem log10fuel_pos (f n : Nat) (hf : 0 < f) (hn : 10 ≤ n) :
    0 < log10fuel f n := by
  obtain ⟨k, rfl⟩ : ∃ k, f = k + 1 := ⟨f - 1, by omega⟩
  have h : ¬ n < 10 := by omega
  simp [log10fuel, h]

/-- With no key pressed the direction is unchanged. -/
theorem applyInput_noInput (d : Nat) : applyInput noInput d = d := by
  simp [applyInput, noInput]

/-- Requesting the exact reverse of the current direction is rejected by
all four key guards. -/
theorem applyInput_reverse (d : Nat) :
    applyInput (keyFor ((d + 2) % 4)) d = d := by
  have hmod : (d + 2) % 4 = (d % 4 + 2) % 4 := by omega
  have h : d % 4 = 0 ∨ d % 4 = 1 ∨ d % 4 = 2 ∨ d % 4 = 3 := by omega
  rcases h with h | h | h | h <;> simp [applyInput, keyFor, hmod, h]

/-! ## Claims -/

/-- C1 (counterexample): on the initial chain `[(5,5),(4,5),(3,5)]` with the
pending growth of 1 that every session starts with, a move right yields the
post-move chain `[(6,5),(5,5),(4,5),(4,5)]`; the cell at index 3 of the
post-move chain is `(4,5)`, not the pre-move cell at index 2, `(3,5)`.  So
it is not the case that every index `i ≥ 1` of the post-move chain holds
the pre-move cell of index `i − 1`: the cells appended by pending growth
copy the new tail position instead. -/
theorem c1_counterexample :
    ¬ (∀ i : Nat, 1 ≤ i → i < c1post.length → c1post[i]? = c1pre[i - 1]?) :=
  fun h => absurd (h 3 (by decide) (by decide)) (by decide)

/-- C1 (amended): after `head.move` with direction `d`, the new head is the
old head plus the unit vector of `d`, wrapped by the grid, and every
post-move chain cell whose index `i ≥ 1` lies within the pre-move chain
length equals the pre-move cell at index `i − 1` (a simultaneous shift
computed from pre-move positions); indices beyond the pre-move length exist
only when growth is pending and copy the new tail position. -/
theorem c1_move_shift (w : World) (hd : Cell) (body : List Cell) (d g : Nat)
    (i : Nat) (h1 : 1 ≤ i) (h2 : i < (hd :: body).length) :
    (moveSnake w hd body d g).1 = wrapCell w (deltaMove hd d) ∧
    ((moveSnake w hd body d g).1 :: (moveSnake w hd body d g).2.1)[i]? =
      (hd :: body)[i - 1]? := by
  constructor
  · rfl
  · obtain ⟨j, rfl⟩ : ∃ j, i = j + 1 := ⟨i - 1, by omega⟩
    have hb : j < body.length := by simpa using h2
    have hs := stepBody_getElem? body hd g j hb
    simpa [moveSnake] using hs

/-- C1 (witness for the amended theorem): a concrete move right without
pending growth, checked at index 1. -/
theorem c1_move_shift_witness :
    (moveSnake ⟨50, 50⟩ (5, 5) [(4, 5), (3, 5)] 0 0).1 =
      wrapCell ⟨50, 50⟩ (deltaMove (5, 5) 0) ∧
    ((moveSnake ⟨50, 50⟩ (5, 5) [(4, 5), (3, 5)] 0 0).1 ::
        (moveSnake ⟨50, 50⟩ (5, 5) [(4, 5), (3, 5)] 0 0).2.1)[1]? =
      ((5, 5) :: [(4, 5), (3, 5)] : List Cell)[1 - 1]? :=
  c1_move_shift ⟨50, 50⟩ (5, 5) [(4, 5), (3, 5)] 0 0 1 (by decide) (by decide)

/-- C2 (code bug): the tick-gating interval `int64(12.0 − points/10000.0)`
has no lower clamp.  At the reachable score 120000 (for example 100 food
consumptions and 2000 moves) the interval is 0, not `max 1 …  = 1`, and the
gating computation `frame % int64(currSpeed)` is a division by zero — the
`update` step faults instead of performing a move.  The same happens at
score 110010. -/
theorem c2_interval_zero :
    currSpeedInt 120000 = 0 ∧ currSpeedInt 110010 = 0 ∧
    update noInput [] c2state = Outcome.modZeroFault := by decide

/-- C3: one `update` call reports the `errLose` terminal signal exactly
when the frame is not skipped or escaped, the gating interval is well
defined and reached (a move completes on this tick), and the post-move head
cell occurs among the post-move chain cells of index ≥ 1 (the child chain
that `head.alive` checks right after the move).  Ticks on which no move
completes never report it. -/
theorem c3_lose_iff (inp : Input) (cands : List Cell) (s : GameState) :
    update inp cands s = Outcome.lose ↔
      (inp.slow = false ∧ inp.escape = false ∧
        currSpeedInt s.points ≠ 0 ∧
        (s.frame + 1).tmod (currSpeedInt s.points) = 0 ∧
        (moveSnake s.world s.head s.body (applyInput inp s.direction) s.grow).1 ∈
          (moveSnake s.world s.head s.body (applyInput inp s.direction) s.grow).2.1) := by
  cases hs : inp.slow with
  | true => simp [update, hs]
  | false =>
    cases he : inp.escape with
    | true => simp [update, hs, he]
    | false =>
      by_cases hc : currSpeedInt s.points = 0
      · simp [update, hs, he, hc]
      · by_cases hg : (s.frame + 1).tmod (currSpeedInt s.points) = 0
        · cases ha : alive (moveSnake s.world s.head s.body (applyInput inp s.direction) s.grow).1
              (moveSnake s.world s.head s.body (applyInput inp s.direction) s.grow).2.1 with
          | true =>
              have hmem := alive_eq_false_iff
                (moveSnake s.world s.head s.body (applyInput inp s.direction) s.grow).1
                (moveSnake s.world s.head s.body (applyInput inp s.direction) s.grow).2.1
              simp only [update, hs, he, if_neg hc, hg, if_pos hg, if_false, Bool.false_eq_true,
                if_true, ha] at *
              constructor
              · intro hcontra
                exact absurd hcontra (eatPhase_ne_lose _ _)
              · intro hcontra
                rw [← hmem] at hcontra
                simp [ha] at hcontra
          | false =>
              have hmem := (alive_eq_false_iff
                (moveSnake s.world s.head s.body (applyInput inp s.direction) s.grow).1
                (moveSnake s.world s.head s.body (applyInput inp s.direction) s.grow).2.1).mp ha
              simp [update, hs, he, hc, hg, ha, hmem]
        · simp only [update, hs, he, if_neg hc, if_neg hg, Bool.false_eq_true, if_false]
          constructor
          · intro hcontra
            exact absurd hcontra (eatPhase_ne_lose _ _)
          · intro hcontra
            exact absurd hcontra.2.2.2.1 hg

/-- C4 (counterexample): the edge handling of `head.move` sends `x = -1` to
`cellsX` itself, so on a grid with `cellsX = 50` the coordinate becomes 50,
not 49, and it does not lie in `[0, 50)`: the wrap is not modular reduction
into `[0, extent)`. -/
theorem c4_counterexample :
    wrapCoord (-1) 50 = 50 ∧ ¬ wrapCoord (-1) 50 = 49 ∧ ¬ wrapCoord (-1) 50 < 50 := by
  decide

/-- C4 (amended): for the single-step offsets that `head.move` produces
(one unit off a coordinate already in `[0, extent]`), the edge handling
maps into the inclusive range `[0, extent]` — an axis of `extent + 1`
cells: `-1` wraps to `extent` (50 on a grid with `cellsX = 50`) and
`extent + 1` wraps to 0; coordinates already in range are unchanged. -/
theorem c4_wrap_inclusive (c e : Int) (he : 0 ≤ e) (h1 : -1 ≤ c) (h2 : c ≤ e + 1) :
    (0 ≤ wrapCoord c e ∧ wrapCoord c e ≤ e) ∧
    wrapCoord (-1) e = e ∧ wrapCoord (e + 1) e = 0 ∧
    (0 ≤ c → c ≤ e → wrapCoord c e = c) := by
  simp only [wrapCoord]
  split_ifs <;> omega

/-- C4 (witness for the amended theorem) at `c = -1`, `e = 50`. -/
theorem c4_wrap_inclusive_witness :
    ((0 ≤ wrapCoord (-1) 50 ∧ wrapCoord (-1) 50 ≤ 50) ∧
      wrapCoord (-1) 50 = 50 ∧ wrapCoord (50 + 1) 50 = 0 ∧
      (0 ≤ (-1 : Int) → (-1 : Int) ≤ 50 → wrapCoord (-1) 50 = -1)) :=
  c4_wrap_inclusive (-1) 50 (by decide) (by decide) (by decide)

/-- Food preservation through the food check: if the head does not sit on
the food then the state is unchanged, and otherwise the respawned food
avoids the whole chain. -/
theorem eatPhase_food_free (cands : List Cell) (s1 s2 : GameState)
    (h : eatPhase cands s1 = Outcome.ok s2)
    (hfree : s1.head ≠ s1.food → s1.food ∉ chain s1) :
    s2.food ∉ chain s2 := by
  obtain ⟨hw, hh, hb, hdir, hf, hcase⟩ := eatPhase_ok cands s1 s2 h
  rcases hcase with ⟨heq, hne⟩ | ⟨hhf, hpts, hgrow, hresp⟩
  · subst heq
    exact hfree hne
  · have hnm := respawnFind_not_mem s1.head s1.body cands s2.food hresp
    intro hmem
    apply hnm
    simp only [chain, hh, hb] at hmem
    exact hmem

/-- C5: the food never coincides with a chain cell.  Respawn only ever
accepts a cell free of the whole chain, and one `update` step — move,
growth and consumption included — preserves the non-overlap: from a state
whose food is off the chain, any `ok` successor state again has its food
off the chain. -/
theorem c5_food_invariant :
    (∀ (hd fc : Cell) (body cands : List Cell),
        respawnFind hd body cands = some fc → fc ∉ hd :: body) ∧
    (∀ (inp : Input) (cands : List Cell) (s s2 : GameState),
        s.food ∉ chain s → update inp cands s = Outcome.ok s2 →
        s2.food ∉ chain s2) := by
  constructor
  · exact fun hd fc body cands h => respawnFind_not_mem hd body cands fc h
  · intro inp cands s s2 hinv hupd
    cases hs : inp.slow with
    | true =>
        simp only [update, hs, if_true, Outcome.ok.injEq] at hupd
        subst hupd
        simpa [chain] using hinv
    | false =>
      cases he : inp.escape with
      | true => simp [update, hs, he] at hupd
      | false =>
        by_cases hc : currSpeedInt s.points = 0
        · simp [update, hs, he, hc] at hupd
        · by_cases hg : (s.frame + 1).tmod (currSpeedInt s.points) = 0
          · cases ha : alive
                (moveSnake s.world s.head s.body (applyInput inp s.direction) s.grow).1
                (moveSnake s.world s.head s.body (applyInput inp s.direction) s.grow).2.1 with
            | false => simp [update, hs, he, hc, hg, ha] at hupd
            | true =>
                simp only [update, hs, he, if_neg hc, if_pos hg, ha, if_true,
                  Bool.false_eq_true, if_false] at hupd
                refine eatPhase_food_free cands _ s2 hupd ?_
                intro hne hmem
                rcases List.mem_cons.mp hmem with hmem | hmem
                · exact hne hmem.symm
                · rcases stepBody_mem s.body s.head s.grow s.food hmem with h1 | h1
                  · exact hinv (by simp [chain, h1])
                  · exact hinv (by simp [chain, h1])
          · simp only [update, hs, he, if_neg hc, if_neg hg, Bool.false_eq_true,
              if_false] at hupd
            refine eatPhase_food_free cands _ s2 hupd ?_
            intro _ hmem
            exact hinv hmem

/-- C5 (witness): both parts at concrete inputs — an accepted respawn
candidate off a two-cell chain, and one non-gated tick from `c5state`. -/
theorem c5_food_invariant_witness :
    (((3 : Int), (3 : Int)) ∉ ((0, 0) :: [(0, 1)] : List Cell)) ∧
    ({ c5state with frame := 1 } : GameState).food ∉
      chain { c5state with frame := 1 } :=
  ⟨c5_food_invariant.1 (0, 0) (3, 3) [(0, 1)] [(3, 3)] (by decide),
   c5_food_invariant.2 noInput [] c5state { c5state with frame := 1 }
     (by decide) (by decide)⟩

/-- C6 (counterexample): with 2 segments owed on the chain
`[(5,5),(4,5),(3,5)]`, a single `node.step` appends BOTH segments at once —
the counter drops to 0 (not to 1, as one-per-tick decrementing predicts),
the chain grows by 2 in one move, and the appended cells copy the new tail
position `(4,5)`, not the pre-move tail position `(3,5)`. -/
theorem c6_counterexample :
    stepBody ((5 : Int), (5 : Int)) 2 [(4, 5), (3, 5)] =
      ([(5, 5), (4, 5), (4, 5), (4, 5)], 0) ∧
    ¬ (stepBody ((5 : Int), (5 : Int)) 2 [(4, 5), (3, 5)]).2 = 1 ∧
    ¬ (stepBody ((5 : Int), (5 : Int)) 2 [(4, 5), (3, 5)]).1.length = 3 ∧
    ¬ (stepBody ((5 : Int), (5 : Int)) 2 [(4, 5), (3, 5)]).1 =
        [(5, 5), (4, 5), (3, 5)] := by decide

/-- C6 (amended): the growth counter is a non-negative count of segments
owed; when the new head sits on the food, the score increases by the food
bonus 1000 and the counter becomes positive (`⌊log10 score⌋ ≥ 3`); on the
next move over a non-empty child chain ALL owed segments are appended at
once, at the new tail position, and the counter drops to zero in that
single move. -/
theorem c6_growth :
    (∀ (p : Cell) (g : Nat) (l : List Cell), l ≠ [] →
        (stepBody p g l).2 = 0 ∧ (stepBody p g l).1.length = l.length + g) ∧
    (∀ (cands : List Cell) (s s2 : GameState),
        eatPhase cands s = Outcome.ok s2 → s.head = s.food → 0 ≤ s.points →
        s2.points = s.points + 1000 ∧ s2.grow = growFormula (s.points + 1000) ∧
          0 < s2.grow) := by
  constructor
  · intro p g l hl
    have h := stepBody_length l p g hl
    exact ⟨h.2, h.1⟩
  · intro cands s s2 h hf hpts
    obtain ⟨_, _, _, _, _, hcase⟩ := eatPhase_ok cands s s2 h
    rcases hcase with ⟨_, hne⟩ | ⟨_, hp, hg, _⟩
    · exact absurd hf hne
    · refine ⟨hp, hg, ?_⟩
      rw [hg]
      have h10 : (10 : Nat) ≤ (s.points + 1000).toNat := by omega
      exact log10fuel_pos _ _ (by omega) h10

/-- C6 (witness): the two parts at the concrete inputs of the
counterexample chain and of the consumption from `c6state`. -/
theorem c6_growth_witness :
    ((stepBody ((5 : Int), (5 : Int)) 2 [(4, 5), (3, 5)]).2 = 0 ∧
      (stepBody ((5 : Int), (5 : Int)) 2 [(4, 5), (3, 5)]).1.length =
        ([(4, 5), (3, 5)] : List Cell).length + 2) ∧
    (c6state2.points = c6state.points + 1000 ∧
      c6state2.grow = growFormula (c6state.points + 1000) ∧ 0 < c6state2.grow) :=
  ⟨c6_growth.1 (5, 5) 2 [(4, 5), (3, 5)] (by decide),
   c6_growth.2 [(0, 0)] c6state c6state2 (by decide) rfl (by decide)⟩

/-- C7 (counterexample): the respawn loop has no retry bound and no
board-full signal.  On a 2×2 sample space fully covered by the chain, every
draw is rejected: even after three full passes over the entire sample space
the search has accepted nothing — the Go loop simply never exits. -/
theorem c7_counterexample :
    respawnFind (0, 0) [(0, 1), (1, 0), (1, 1)]
      (gridCells ⟨2, 2⟩ ++ gridCells ⟨2, 2⟩ ++ gridCells ⟨2, 2⟩) = none := by decide

/-- C7 (amended): the respawn search accepts the first drawn cell that is
free of the whole chain — it terminates exactly when such a draw occurs.
When the chain covers the entire sample space `[0, cellsX) × [0, cellsY)`,
every possible draw sequence is rejected in full, i.e. the unbounded `for`
loop never terminates; no retry bound and no distinct board-full condition
exist in the code. -/
theorem c7_respawn_unbounded :
    (∀ (hd fc : Cell) (body cands : List Cell),
        respawnFind hd body cands = some fc → fc ∉ hd :: body) ∧
    (∀ (w : World) (hd : Cell) (body cands : List Cell),
        (∀ c ∈ gridCells w, c ∈ hd :: body) → (∀ c ∈ cands, c ∈ gridCells w) →
        respawnFind hd body cands = none) := by
  constructor
  · exact fun hd fc body cands h => respawnFind_not_mem hd body cands fc h
  · intro w hd body cands hfull hcands
    rw [respawnFind, List.find?_eq_none]
    intro c hc
    have hmem : c ∈ hd :: body := hfull c (hcands c hc)
    simp [collided_iff_mem, hmem]

/-- C7 (witness): both parts at a 2×2 board — a free cell is accepted and
lies off the chain, and the fully covered board rejects the whole sample
space. -/
theorem c7_respawn_unbounded_witness :
    (((3 : Int), (3 : Int)) ∉ ((0, 0) :: [(0, 1)] : List Cell)) ∧
    respawnFind (0, 0) [(0, 1), (1, 0), (1, 1)] (gridCells ⟨2, 2⟩) = none :=
  ⟨c7_respawn_unbounded.1 (0, 0) (3, 3) [(0, 1)] [(3, 3)] (by decide),
   c7_respawn_unbounded.2 ⟨2, 2⟩ (0, 0) [(0, 1), (1, 0), (1, 1)] (gridCells ⟨2, 2⟩)
     (by decide) (fun c hc => hc)⟩

/-- C8: while the chain has more than one cell, a direction request equal
to `(current + 2) mod 4` — the exact reverse — leaves the direction used by
the next move unchanged.  (The four key guards of `update` reject the
reverse unconditionally, so in particular in these states.) -/
theorem c8_reversal_guard (s : GameState) (_hlen : 1 < (chain s).length) :
    applyInput (keyFor ((s.direction + 2) % 4)) s.direction = s.direction :=
  applyInput_reverse s.direction

/-- C8 (witness): the three-cell chain of `c8state` heading right; the Left
key is ignored. -/
theorem c8_reversal_guard_witness :
    applyInput (keyFor ((c8state.direction + 2) % 4)) c8state.direction =
      c8state.direction :=
  c8_reversal_guard c8state (by decide)

/-- C9: a tick that does not reach the gating threshold (and whose head is
off the food, as the food invariant guarantees for reachable states) leaves
the whole session state unchanged except for the frame counter — in
particular the chain keeps its length and every cell position. -/
theorem c9_nongated (cands : List Cell) (s : GameState)
    (hcurr : currSpeedInt s.points ≠ 0)
    (hgate : (s.frame + 1).tmod (currSpeedInt s.points) ≠ 0)
    (hfood : s.head ≠ s.food) :
    update noInput cands s = Outcome.ok { s with frame := s.frame + 1 } := by
  simp [update, noInput, hcurr, hgate, eatPhase, hfood, applyInput]

/-- C9 (witness): one non-gated tick from `c9state` (frame 1 of 12). -/
theorem c9_nongated_witness :
    update noInput [] c9state = Outcome.ok { c9state with frame := c9state.frame + 1 } :=
  c9_nongated [] c9state (by decide) (by decide) (by decide)

/-- C10 (counterexample): the 10×10 session with initial length 3 starts
with a pending growth of 1 (`grow int = 1`), so the first gated tick (frame
12) moves the head to (6,5) but grows the chain to length 4 — the chain
length does not stay 3. -/
theorem c10_counterexample :
    okHead (runTicks noInput [] 12 c10start) = some (6, 5) ∧
    okChainLen (runTicks noInput [] 12 c10start) = some 4 ∧
    ¬ okChainLen (runTicks noInput [] 12 c10start) = some 3 := by decide

/-- C10 (amended): from the 10×10 session with initial length 3, head
(5,5), facing Right and no food on the path, the three ticks that reach the
gating threshold (frames 12, 22 and 33 — the interval drops from 12 to 11
after the first move score) move the head to (6,5), (7,5), (8,5); the chain
has length 4 from the first move on, because the session starts with one
segment of pending growth. -/
theorem c10_scenario :
    c10start.head = (5, 5) ∧ (chain c10start).length = 3 ∧ c10start.direction = 0 ∧
    okHead (runTicks noInput [] 12 c10start) = some (6, 5) ∧
    okChainLen (runTicks noInput [] 12 c10start) = some 4 ∧
    okHead (runTicks noInput [] 22 c10start) = some (7, 5) ∧
    okChainLen (runTicks noInput [] 22 c10start) = some 4 ∧
    okHead (runTicks noInput [] 33 c10start) = some (8, 5) ∧
    okChainLen (runTicks noInput [] 33 c10start) = some 4 := by decide

end Snake
